import Mathlib

/-!
Shallow embedding of `src/poller.cpp` from libbitcoin-node.

The poller is an event-driven block-synchronization driver.  Each C++
handler mutates the poller's four member fields and performs external
calls (sends, subscriptions, locator fetches, block stores, log lines).
We embed every handler as a pure function from the poller state and the
handler's arguments to the new state together with the ordered list of
external effects it performs.  Hashes and channel identities are
abstracted as natural numbers; an error code is a natural number whose
nonzero values signal failure, matching the C++ `if (ec)` tests.

`ask_blocks` reads `locator.front()` unguarded; on an empty locator that
access is undefined behavior, so its embedding returns an `Option`,
with `none` exactly when the undefined access would be reached.
-/

namespace LibbitcoinNode

/-- A 32-byte hash, abstracted to a natural number. -/
abbrev hash_digest := Nat

/-- Identity of a peer channel (`node.get()` in the C++), abstracted. -/
abbrev channel_id := Nat

/-- The all-zero sentinel hash (`null_hash`). -/
def null_hash : hash_digest := 0

/-- An error code; `0` is success, nonzero signals failure (`if (ec)`). -/
abbrev std_error_code := Nat

/-- `inventory_type_id`: the kind tag of an announced inventory item. -/
inductive inventory_type_id where
  | error
  | transaction
  | block
deriving DecidableEq

/-- `inventory_vector_type`: one announced (kind, hash) pair. -/
structure inventory_vector_type where
  type : inventory_type_id
  hash : hash_digest
deriving DecidableEq

/-- `inventory_type`: an inventory message, a list of announced items. -/
structure inventory_type where
  inventories : List inventory_vector_type
deriving DecidableEq

/-- `get_data_type`: a get-data request, a list of inventory items. -/
structure get_data_type where
  inventories : List inventory_vector_type
deriving DecidableEq

/-- `get_blocks_type`: a get-blocks request (locator plus stop hash). -/
structure get_blocks_type where
  start_hashes : List hash_digest
  hash_stop : hash_digest
deriving DecidableEq

/-- `block_status`: outcome reported by the blockchain store. -/
inductive block_status where
  | orphan
  | rejected
  | confirmed
deriving DecidableEq

/-- `block_info`: storage outcome with the confirmed height. -/
structure block_info where
  status : block_status
  height : Nat
deriving DecidableEq

/-- A block header, abstracted to the identity hash it determines. -/
structure block_header_type where
  header_hash : hash_digest
deriving DecidableEq

/-- `block_type`: a block payload; the driver only reads its header. -/
structure block_type where
  header : block_header_type
deriving DecidableEq

/-- `hash_block_header`: the block identity hash of a header. -/
def hash_block_header (h : block_header_type) : hash_digest :=
  h.header_hash

/-- Severity levels used by the poller's log lines. -/
inductive log_level where
  | error
  | warning
  | info
  | debug
deriving DecidableEq

/-- One external effect performed by a handler, in program order. -/
inductive effect where
  | send_get_data (node : channel_id) (packet : get_data_type)
  | send_get_blocks (node : channel_id) (packet : get_blocks_type)
  | subscribe_inventory (node : channel_id)
  | subscribe_block (node : channel_id)
  | fetch_locator_then_initial_ask (node : channel_id)
  | fetch_locator_then_ask (node : channel_id) (hash_stop : hash_digest)
  | queue_ask_blocks (node : channel_id) (locator : List hash_digest)
      (hash_stop : hash_digest)
  | store_block (node : channel_id) (block_hash : hash_digest)
  | log (lvl : log_level)
deriving DecidableEq

/-- The poller's four mutable member fields. -/
structure poller_state where
  last_block_hash_ : hash_digest
  last_locator_begin_ : hash_digest
  last_hash_stop_ : hash_digest
  last_requested_node_ : channel_id
deriving DecidableEq

/-- The loop body of `receive_inv`: keep an announced item when it is of
kind block and its hash differs from the given `last_block_hash_`. -/
def wanted_inventory (last_hash : hash_digest)
    (ivv : inventory_vector_type) : Bool :=
  ivv.type == inventory_type_id.block && ivv.hash != last_hash

/-- `poller::query`: fetch the block locator, continuing with
`initial_ask_blocks`. -/
def query (st : poller_state) (node : channel_id) :
    poller_state × List effect :=
  (st, [effect.fetch_locator_then_initial_ask node])

/-- `poller::monitor`: subscribe to inventory and block events. -/
def monitor (st : poller_state) (node : channel_id) :
    poller_state × List effect :=
  (st, [effect.subscribe_inventory node, effect.subscribe_block node])

/-- `poller::initial_ask_blocks`: on a failed locator fetch log an error
and stop; otherwise queue `ask_blocks` with the null stop hash. -/
def initial_ask_blocks (st : poller_state) (ec : std_error_code)
    (locator : List hash_digest) (node : channel_id) :
    poller_state × List effect :=
  if ec ≠ 0 then
    (st, [effect.log log_level.error])
  else
    (st, [effect.queue_ask_blocks node locator null_hash])

/-- `poller::receive_inv`: on failure log a warning and return; on
success build the get-data request from the announced items of kind
block whose hash differs from `last_block_hash_`, send it when
non-empty (updating `last_block_hash_` to the last kept item's hash),
then re-subscribe to inventory events. -/
def receive_inv (st : poller_state) (ec : std_error_code)
    (packet : inventory_type) (node : channel_id) :
    poller_state × List effect :=
  if ec ≠ 0 then
    (st, [effect.log log_level.warning])
  else
    let getdata : get_data_type :=
      ⟨packet.inventories.filter (wanted_inventory st.last_block_hash_)⟩
    if h : getdata.inventories ≠ [] then
      ({ st with last_block_hash_ := (getdata.inventories.getLast h).hash },
       [effect.send_get_data node getdata,
        effect.subscribe_inventory node])
    else
      (st, [effect.subscribe_inventory node])

/-- `poller::receive_block`: on failure log a warning and return; on
success submit the block for storage (the continuation is
`handle_store` carrying the block's header hash) and re-subscribe to
block events. -/
def receive_block (st : poller_state) (ec : std_error_code)
    (blk : block_type) (node : channel_id) :
    poller_state × List effect :=
  if ec ≠ 0 then
    (st, [effect.log log_level.warning])
  else
    (st, [effect.store_block node (hash_block_header blk.header),
          effect.subscribe_block node])

/-- `poller::handle_store`: a failed store that is not an orphan logs a
warning and stops; otherwise dispatch on the status — an orphan logs a
warning and fetches a fresh locator continuing with `ask_blocks`
bounded by the orphan's hash, a rejected block logs a warning, a
confirmed block logs at info level. -/
def handle_store (st : poller_state) (ec : std_error_code)
    (info : block_info) (block_hash : hash_digest) (node : channel_id) :
    poller_state × List effect :=
  if ec ≠ 0 ∧ info.status ≠ block_status.orphan then
    (st, [effect.log log_level.warning])
  else
    match info.status with
    | block_status.orphan =>
        (st, [effect.log log_level.warning,
              effect.fetch_locator_then_ask node block_hash])
    | block_status.rejected =>
        (st, [effect.log log_level.warning])
    | block_status.confirmed =>
        (st, [effect.log log_level.info])

/-- `poller::ask_blocks`: on a failed locator fetch log an error and
stop.  Otherwise read the locator's front element — undefined behavior
(`none`) when the locator is empty.  When the (front, stop hash, node)
tuple equals the stored last-request fields, log at debug severity and
skip the send; otherwise send the get-blocks request and update the
last-request fields. -/
def ask_blocks (st : poller_state) (ec : std_error_code)
    (locator : List hash_digest) (hash_stop : hash_digest)
    (node : channel_id) : Option (poller_state × List effect) :=
  if ec ≠ 0 then
    some (st, [effect.log log_level.error])
  else
    match locator.head? with
    | none => none
    | some front =>
        if st.last_locator_begin_ = front ∧ st.last_hash_stop_ = hash_stop ∧
            st.last_requested_node_ = node then
          some (st, [effect.log log_level.debug])
        else
          some ({ st with
                    last_locator_begin_ := front,
                    last_hash_stop_ := hash_stop,
                    last_requested_node_ := node },
                [effect.send_get_blocks node ⟨locator, hash_stop⟩])

/-- `true` exactly on a get-blocks send effect. -/
def effect.is_send_get_blocks : effect → Bool
  | effect.send_get_blocks _ _ => true
  | _ => false

/-- Number of get-blocks messages sent in an effect list. -/
def count_get_blocks_sends (effs : List effect) : Nat :=
  (effs.filter effect.is_send_get_blocks).length

/-! ## Helper lemmas on `ask_blocks` -/

/-- On a failed locator fetch, `ask_blocks` only logs an error. -/
lemma ask_blocks_fail (st : poller_state) (ec : std_error_code)
    (locator : List hash_digest) (hash_stop : hash_digest)
    (node : channel_id) (h : ec ≠ 0) :
    ask_blocks st ec locator hash_stop node =
      some (st, [effect.log log_level.error]) := by
  unfold ask_blocks
  simp [h]

/-- A duplicate request is suppressed: only a debug log, state kept. -/
lemma ask_blocks_dup (st : poller_state) (front : hash_digest)
    (rest : List hash_digest) (hash_stop : hash_digest) (node : channel_id)
    (h : st.last_locator_begin_ = front ∧ st.last_hash_stop_ = hash_stop ∧
         st.last_requested_node_ = node) :
    ask_blocks st 0 (front :: rest) hash_stop node =
      some (st, [effect.log log_level.debug]) := by
  unfold ask_blocks
  simp [h]

/-- A non-duplicate request is sent and the last-request fields updated. -/
lemma ask_blocks_send (st : poller_state) (front : hash_digest)
    (rest : List hash_digest) (hash_stop : hash_digest) (node : channel_id)
    (h : ¬(st.last_locator_begin_ = front ∧ st.last_hash_stop_ = hash_stop ∧
           st.last_requested_node_ = node)) :
    ask_blocks st 0 (front :: rest) hash_stop node =
      some ({ st with
                last_locator_begin_ := front,
                last_hash_stop_ := hash_stop,
                last_requested_node_ := node },
            [effect.send_get_blocks node ⟨front :: rest, hash_stop⟩]) := by
  unfold ask_blocks
  simp [h]

/-! ## Claim theorems -/

/-- C9: `ask_blocks` reads the locator's front element unguarded, so it
is well-defined whenever the locator is non-empty (or the error path is
taken before the read), and the read is reached — undefined behavior —
exactly when the fetch succeeded and the locator is empty. -/
theorem C9_ask_blocks_locator_precondition (st : poller_state)
    (ec : std_error_code) (locator : List hash_digest)
    (hash_stop : hash_digest) (node : channel_id) :
    (locator ≠ [] → (ask_blocks st ec locator hash_stop node).isSome) ∧
    (ec = 0 → locator = [] →
      ask_blocks st ec locator hash_stop node = none) := by
  constructor
  · intro h
    by_cases hec : ec ≠ 0
    · rw [ask_blocks_fail st ec locator hash_stop node hec]
      rfl
    · push_neg at hec
      subst hec
      cases locator with
      | nil => exact absurd rfl h
      | cons front rest =>
          by_cases hd : st.last_locator_begin_ = front ∧
              st.last_hash_stop_ = hash_stop ∧ st.last_requested_node_ = node
          · rw [ask_blocks_dup st front rest hash_stop node hd]
            rfl
          · rw [ask_blocks_send st front rest hash_stop node hd]
            rfl
  · intro hec hl
    subst hec hl
    unfold ask_blocks
    simp

/-- C9 witness: `ask_blocks` is defined on a one-element locator and
undefined (models the out-of-bounds read) on an empty one. -/
theorem C9_witness :
    (([5] : List hash_digest) ≠ [] ∧
      (ask_blocks ⟨0, 1, 2, 3⟩ 0 [5] 4 9).isSome) ∧
    ask_blocks ⟨0, 1, 2, 3⟩ 0 [] 4 9 = none :=
  ⟨⟨by decide,
    (C9_ask_blocks_locator_precondition ⟨0, 1, 2, 3⟩ 0 [5] 4 9).1 (by decide)⟩,
   (C9_ask_blocks_locator_precondition ⟨0, 1, 2, 3⟩ 0 [] 4 9).2 rfl rfl⟩

/-- C10: a successfully delivered inventory batch whose filtered set is
empty sends nothing and changes no state, yet still re-subscribes to
inventory events. -/
theorem C10_empty_filter_frame (st : poller_state) (packet : inventory_type)
    (node : channel_id)
    (h : packet.inventories.filter (wanted_inventory st.last_block_hash_)
           = []) :
    receive_inv st 0 packet node =
      (st, [effect.subscribe_inventory node]) := by
  unfold receive_inv
  simp [h]

/-- C10 witness: a batch holding a transaction item and the
already-announced block hash filters to empty and only re-subscribes. -/
theorem C10_witness :
    ((⟨[⟨inventory_type_id.transaction, 2⟩, ⟨inventory_type_id.block, 1⟩]⟩ :
        inventory_type).inventories.filter (wanted_inventory 1) = []) ∧
    receive_inv ⟨1, 0, 0, 0⟩ 0
        ⟨[⟨inventory_type_id.transaction, 2⟩, ⟨inventory_type_id.block, 1⟩]⟩ 7 =
      (⟨1, 0, 0, 0⟩, [effect.subscribe_inventory 7]) :=
  ⟨by decide,
   C10_empty_filter_frame ⟨1, 0, 0, 0⟩
     ⟨[⟨inventory_type_id.transaction, 2⟩, ⟨inventory_type_id.block, 1⟩]⟩ 7
     (by decide)⟩

/-- C7: a storage completion whose outcome is not orphan — confirmed,
rejected, or any failed non-orphan store — leaves the state unchanged
and performs only log effects: no send, no locator fetch, no further
action for that block. -/
theorem C7_non_orphan_store_silent (st : poller_state)
    (ec : std_error_code) (info : block_info) (block_hash : hash_digest)
    (node : channel_id) (h : info.status ≠ block_status.orphan) :
    (handle_store st ec info block_hash node).1 = st ∧
    ∀ e ∈ (handle_store st ec info block_hash node).2,
      ∃ lvl, e = effect.log lvl := by
  rcases info with ⟨status, height⟩
  unfold handle_store
  cases status with
  | orphan => exact absurd rfl h
  | rejected =>
      by_cases hec : ec ≠ 0 <;> simp [hec]
  | confirmed =>
      by_cases hec : ec ≠ 0 <;> simp [hec]

/-- C7 witness: a confirmed store at height 100 only logs at info level
and leaves the state unchanged. -/
theorem C7_witness :
    ((⟨block_status.confirmed, 100⟩ : block_info).status ≠
        block_status.orphan) ∧
    (handle_store ⟨0, 1, 2, 3⟩ 0 ⟨block_status.confirmed, 100⟩ 5 9).1 =
        ⟨0, 1, 2, 3⟩ ∧
    ∀ e ∈ (handle_store ⟨0, 1, 2, 3⟩ 0 ⟨block_status.confirmed, 100⟩ 5 9).2,
      ∃ lvl, e = effect.log lvl :=
  ⟨by decide,
   (C7_non_orphan_store_silent ⟨0, 1, 2, 3⟩ 0 ⟨block_status.confirmed, 100⟩ 5 9
     (by decide)).1,
   (C7_non_orphan_store_silent ⟨0, 1, 2, 3⟩ 0 ⟨block_status.confirmed, 100⟩ 5 9
     (by decide)).2⟩

/-- C1 counterexample: a failed inventory delivery and a failed block
delivery return after a warning log with no re-subscription of either
kind, refuting the claim that re-subscription also happens on failure. -/
theorem C1_counterexample :
    receive_inv ⟨0, 0, 0, 0⟩ 1 ⟨[]⟩ 7 =
      (⟨0, 0, 0, 0⟩, [effect.log log_level.warning]) ∧
    effect.subscribe_inventory 7 ∉ (receive_inv ⟨0, 0, 0, 0⟩ 1 ⟨[]⟩ 7).2 ∧
    receive_block ⟨0, 0, 0, 0⟩ 1 ⟨⟨5⟩⟩ 7 =
      (⟨0, 0, 0, 0⟩, [effect.log log_level.warning]) ∧
    effect.subscribe_block 7 ∉ (receive_block ⟨0, 0, 0, 0⟩ 1 ⟨⟨5⟩⟩ 7).2 := by
  decide

/-- C1 amended: after every successfully delivered inventory or block
event the driver re-subscribes to that same event kind for the same
session; after a failed delivery it logs a warning and returns without
re-subscribing. -/
theorem C1_resubscribe_on_success (st : poller_state) (ec : std_error_code)
    (packet : inventory_type) (blk : block_type) (node : channel_id) :
    (ec = 0 →
      effect.subscribe_inventory node ∈ (receive_inv st ec packet node).2 ∧
      effect.subscribe_block node ∈ (receive_block st ec blk node).2) ∧
    (ec ≠ 0 →
      (receive_inv st ec packet node).2 = [effect.log log_level.warning] ∧
      (receive_block st ec blk node).2 = [effect.log log_level.warning]) := by
  constructor
  · intro hec
    subst hec
    constructor
    · unfold receive_inv
      simp only [ne_eq, not_true_eq_false, reduceIte]
      split <;> simp
    · unfold receive_block
      simp
  · intro hec
    unfold receive_inv receive_block
    simp [hec]

/-- C1 witness: a successful empty inventory batch and a successful
block delivery both end re-subscribed to their event kind. -/
theorem C1_witness :
    (0 : std_error_code) = 0 ∧
    effect.subscribe_inventory 7 ∈ (receive_inv ⟨0, 0, 0, 0⟩ 0 ⟨[]⟩ 7).2 ∧
    effect.subscribe_block 7 ∈ (receive_block ⟨0, 0, 0, 0⟩ 0 ⟨⟨5⟩⟩ 7).2 :=
  ⟨rfl, (C1_resubscribe_on_success ⟨0, 0, 0, 0⟩ 0 ⟨[]⟩ ⟨⟨5⟩⟩ 7).1 rfl⟩

/-- C6 counterexample: a batch announcing the same block hash twice
produces a get-data request holding that hash twice — the filtered list
is not deduplicated. -/
theorem C6_counterexample :
    (receive_inv ⟨0, 0, 0, 0⟩ 0
        ⟨[⟨inventory_type_id.block, 5⟩, ⟨inventory_type_id.block, 5⟩]⟩ 7).2 =
      [effect.send_get_data 7
         ⟨[⟨inventory_type_id.block, 5⟩, ⟨inventory_type_id.block, 5⟩]⟩,
       effect.subscribe_inventory 7] ∧
    ¬ ([⟨inventory_type_id.block, 5⟩, ⟨inventory_type_id.block, 5⟩] :
        List inventory_vector_type).Nodup := by
  decide

/-- C6 amended: the outgoing get-data request is exactly the announced
list filtered to new block items, with duplicates preserved in order —
announcing the same block hash twice yields two entries. -/
theorem C6_getdata_is_plain_filter (st : poller_state)
    (packet : inventory_type) (node : channel_id) (n : channel_id)
    (g : get_data_type)
    (h : effect.send_get_data n g ∈ (receive_inv st 0 packet node).2) :
    n = node ∧
    g.inventories =
      packet.inventories.filter (wanted_inventory st.last_block_hash_) := by
  unfold receive_inv at h
  simp only [ne_eq, not_true_eq_false, reduceIte] at h
  split at h
  · simp at h
    exact ⟨h.1, by rw [h.2]⟩
  · simp at h

/-- C6 witness: the duplicate-announcing batch sends exactly the
two-entry filter result. -/
theorem C6_witness :
    effect.send_get_data 7
        ⟨[⟨inventory_type_id.block, 5⟩, ⟨inventory_type_id.block, 5⟩]⟩ ∈
      (receive_inv ⟨0, 0, 0, 0⟩ 0
        ⟨[⟨inventory_type_id.block, 5⟩, ⟨inventory_type_id.block, 5⟩]⟩ 7).2 ∧
    (7 : channel_id) = 7 ∧
    ([⟨inventory_type_id.block, 5⟩, ⟨inventory_type_id.block, 5⟩] :
        List inventory_vector_type) =
      ([⟨inventory_type_id.block, 5⟩, ⟨inventory_type_id.block, 5⟩] :
        List inventory_vector_type).filter (wanted_inventory 0) :=
  ⟨by decide,
   by
     have := C6_getdata_is_plain_filter ⟨0, 0, 0, 0⟩
       ⟨[⟨inventory_type_id.block, 5⟩, ⟨inventory_type_id.block, 5⟩]⟩ 7 7
       ⟨[⟨inventory_type_id.block, 5⟩, ⟨inventory_type_id.block, 5⟩]⟩
       (by decide)
     exact ⟨this.1, this.2⟩⟩

/-- C2: two back-to-back `ask_blocks` invocations with the same
(locator head, stop hash, session) tuple send at most one get-blocks
message: the first sends at most one, and the second — run from the
state the first left behind — skips the send and emits exactly one
debug-severity report. -/
theorem C2_duplicate_ask_suppressed (st st1 : poller_state)
    (e1 : List effect) (front : hash_digest) (rest : List hash_digest)
    (hash_stop : hash_digest) (node : channel_id)
    (h1 : ask_blocks st 0 (front :: rest) hash_stop node = some (st1, e1)) :
    ask_blocks st1 0 (front :: rest) hash_stop node =
      some (st1, [effect.log log_level.debug]) ∧
    count_get_blocks_sends e1 ≤ 1 := by
  by_cases hd : st.last_locator_begin_ = front ∧
      st.last_hash_stop_ = hash_stop ∧ st.last_requested_node_ = node
  · rw [ask_blocks_dup st front rest hash_stop node hd] at h1
    simp only [Option.some.injEq, Prod.mk.injEq] at h1
    obtain ⟨hst, he⟩ := h1
    subst hst
    subst he
    exact ⟨ask_blocks_dup _ front rest hash_stop node hd, by decide⟩
  · rw [ask_blocks_send st front rest hash_stop node hd] at h1
    simp only [Option.some.injEq, Prod.mk.injEq] at h1
    obtain ⟨hst, he⟩ := h1
    subst hst
    subst he
    refine ⟨ask_blocks_dup _ front rest hash_stop node ⟨rfl, rfl, rfl⟩, ?_⟩
    simp [count_get_blocks_sends, effect.is_send_get_blocks]

/-- C2 witness: from a fresh state, the first of two identical requests
is sent and the second is suppressed with a single debug report. -/
theorem C2_witness :
    ask_blocks ⟨0, 1, 2, 3⟩ 0 [5, 6] 4 9 =
      some (⟨0, 5, 4, 9⟩, [effect.send_get_blocks 9 ⟨[5, 6], 4⟩]) ∧
    ask_blocks ⟨0, 5, 4, 9⟩ 0 [5, 6] 4 9 =
      some (⟨0, 5, 4, 9⟩, [effect.log log_level.debug]) ∧
    count_get_blocks_sends [effect.send_get_blocks 9 ⟨[5, 6], 4⟩] ≤ 1 :=
  ⟨by decide,
   (C2_duplicate_ask_suppressed ⟨0, 1, 2, 3⟩ ⟨0, 5, 4, 9⟩
      [effect.send_get_blocks 9 ⟨[5, 6], 4⟩] 5 [6] 4 9 (by decide)).1,
   (C2_duplicate_ask_suppressed ⟨0, 1, 2, 3⟩ ⟨0, 5, 4, 9⟩
      [effect.send_get_blocks 9 ⟨[5, 6], 4⟩] 5 [6] 4 9 (by decide)).2⟩

/-- C5: whenever `ask_blocks` returns, either it sent nothing and left
all last-request fields unchanged (failed fetch or suppressed
duplicate), or it sent exactly one get-blocks request and the
last-request fields now hold that request's (locator head, stop hash,
session) tuple, which differed from the previous value at the time of
the check; `last_block_hash_` is untouched either way. -/
theorem C5_last_request_invariant (st st' : poller_state)
    (effs : List effect) (ec : std_error_code)
    (locator : List hash_digest) (hash_stop : hash_digest)
    (node : channel_id)
    (h : ask_blocks st ec locator hash_stop node = some (st', effs)) :
    (st' = st ∧ ∀ n g, effect.send_get_blocks n g ∉ effs) ∨
    (effs = [effect.send_get_blocks node ⟨locator, hash_stop⟩] ∧
     locator.head? = some st'.last_locator_begin_ ∧
     st'.last_hash_stop_ = hash_stop ∧
     st'.last_requested_node_ = node ∧
     st'.last_block_hash_ = st.last_block_hash_ ∧
     ¬(st.last_locator_begin_ = st'.last_locator_begin_ ∧
       st.last_hash_stop_ = hash_stop ∧
       st.last_requested_node_ = node)) := by
  by_cases hec : ec ≠ 0
  · rw [ask_blocks_fail st ec locator hash_stop node hec] at h
    simp only [Option.some.injEq, Prod.mk.injEq] at h
    obtain ⟨hst, he⟩ := h
    subst hst
    subst he
    exact Or.inl ⟨rfl, by simp⟩
  · push_neg at hec
    subst hec
    cases locator with
    | nil =>
        unfold ask_blocks at h
        simp at h
    | cons front rest =>
        by_cases hd : st.last_locator_begin_ = front ∧
            st.last_hash_stop_ = hash_stop ∧ st.last_requested_node_ = node
        · rw [ask_blocks_dup st front rest hash_stop node hd] at h
          simp only [Option.some.injEq, Prod.mk.injEq] at h
          obtain ⟨hst, he⟩ := h
          subst hst
          subst he
          exact Or.inl ⟨rfl, by simp⟩
        · rw [ask_blocks_send st front rest hash_stop node hd] at h
          simp only [Option.some.injEq, Prod.mk.injEq] at h
          obtain ⟨hst, he⟩ := h
          subst hst
          subst he
          exact Or.inr ⟨rfl, rfl, rfl, rfl, rfl, hd⟩

/-- C5 witness: a sent request records exactly its tuple in the
last-request fields. -/
theorem C5_witness :
    ask_blocks ⟨7, 1, 2, 3⟩ 0 [5, 6] 4 9 =
      some (⟨7, 5, 4, 9⟩, [effect.send_get_blocks 9 ⟨[5, 6], 4⟩]) ∧
    (((⟨7, 5, 4, 9⟩ : poller_state) = ⟨7, 1, 2, 3⟩ ∧
      ∀ n g, effect.send_get_blocks n g ∉
        [effect.send_get_blocks 9 ⟨[5, 6], 4⟩]) ∨
     ([effect.send_get_blocks 9 ⟨[5, 6], 4⟩] =
        [effect.send_get_blocks 9 ⟨[5, 6], 4⟩] ∧
      ([5, 6] : List hash_digest).head? =
        some (poller_state.last_locator_begin_ ⟨7, 5, 4, 9⟩) ∧
      poller_state.last_hash_stop_ ⟨7, 5, 4, 9⟩ = 4 ∧
      poller_state.last_requested_node_ ⟨7, 5, 4, 9⟩ = 9 ∧
      poller_state.last_block_hash_ ⟨7, 5, 4, 9⟩ =
        poller_state.last_block_hash_ ⟨7, 1, 2, 3⟩ ∧
      ¬(poller_state.last_locator_begin_ ⟨7, 1, 2, 3⟩ =
          poller_state.last_locator_begin_ ⟨7, 5, 4, 9⟩ ∧
        poller_state.last_hash_stop_ ⟨7, 1, 2, 3⟩ = 4 ∧
        poller_state.last_requested_node_ ⟨7, 1, 2, 3⟩ = 9))) :=
  ⟨by decide,
   C5_last_request_invariant ⟨7, 1, 2, 3⟩ ⟨7, 5, 4, 9⟩
     [effect.send_get_blocks 9 ⟨[5, 6], 4⟩] 0 [5, 6] 4 9 (by decide)⟩

/-- C4: on a successfully delivered batch, every sent get-data request
goes to the handling session and carries exactly the announced items of
kind block whose hash differs from the pre-call `last_block_hash_` —
never a non-block item, never the pre-call hash; and whenever that
filtered list is non-empty, `last_block_hash_` becomes its last item's
hash and the get-data request for it is among the effects. -/
theorem C4_getdata_exact_filter (st : poller_state)
    (packet : inventory_type) (node : channel_id) :
    (∀ n g, effect.send_get_data n g ∈ (receive_inv st 0 packet node).2 →
      n = node ∧
      g.inventories =
        packet.inventories.filter (wanted_inventory st.last_block_hash_) ∧
      ∀ i ∈ g.inventories,
        i.type = inventory_type_id.block ∧
        i.hash ≠ st.last_block_hash_) ∧
    (∀ lst,
      (packet.inventories.filter
          (wanted_inventory st.last_block_hash_)).getLast? = some lst →
      (receive_inv st 0 packet node).1.last_block_hash_ = lst.hash ∧
      effect.send_get_data node
          ⟨packet.inventories.filter
            (wanted_inventory st.last_block_hash_)⟩ ∈
        (receive_inv st 0 packet node).2) := by
  have hmem : ∀ i ∈ packet.inventories.filter
      (wanted_inventory st.last_block_hash_),
      i.type = inventory_type_id.block ∧ i.hash ≠ st.last_block_hash_ := by
    intro i hi
    have := List.of_mem_filter hi
    simpa [wanted_inventory] using this
  constructor
  · intro n g h
    unfold receive_inv at h
    simp only [ne_eq, not_true_eq_false, reduceIte] at h
    split at h
    · simp at h
      obtain ⟨hn, hg⟩ := h
      subst hg
      exact ⟨hn, rfl, hmem⟩
    · simp at h
  · intro lst hlast
    have hne : packet.inventories.filter
        (wanted_inventory st.last_block_hash_) ≠ [] := by
      intro hnil
      rw [hnil] at hlast
      simp at hlast
    have hgl : (packet.inventories.filter
        (wanted_inventory st.last_block_hash_)).getLast hne = lst := by
      have := List.getLast?_eq_getLast_of_ne_nil hne
      rw [this] at hlast
      exact Option.some.inj hlast
    unfold receive_inv
    simp only [ne_eq, not_true_eq_false, reduceIte]
    rw [dif_pos hne]
    exact ⟨by rw [hgl], by simp⟩

/-- C4 witness: with `last_block_hash_ = A = 1` and announcements
`[block A, block B]`, the get-data request carries only `B = 2` and
`last_block_hash_` becomes `B`. -/
theorem C4_witness :
    effect.send_get_data 7 ⟨[⟨inventory_type_id.block, 2⟩]⟩ ∈
      (receive_inv ⟨1, 0, 0, 0⟩ 0
        ⟨[⟨inventory_type_id.block, 1⟩, ⟨inventory_type_id.block, 2⟩]⟩ 7).2 ∧
    (receive_inv ⟨1, 0, 0, 0⟩ 0
        ⟨[⟨inventory_type_id.block, 1⟩, ⟨inventory_type_id.block, 2⟩]⟩
        7).1.last_block_hash_ = 2 :=
  ⟨((C4_getdata_exact_filter ⟨1, 0, 0, 0⟩
      ⟨[⟨inventory_type_id.block, 1⟩, ⟨inventory_type_id.block, 2⟩]⟩ 7).2
      ⟨inventory_type_id.block, 2⟩ (by decide)).2,
   ((C4_getdata_exact_filter ⟨1, 0, 0, 0⟩
      ⟨[⟨inventory_type_id.block, 1⟩, ⟨inventory_type_id.block, 2⟩]⟩ 7).2
      ⟨inventory_type_id.block, 2⟩ (by decide)).1⟩

/-- C3 counterexample: an orphan completion for block hash 42 on node 3
does fetch a fresh locator, but when the fetched locator's head, the
orphan hash and the session match the previous request the continuation
is duplicate-suppressed: no get-blocks request is issued, refuting the
claim's unconditional "a new get-blocks request is issued". -/
theorem C3_counterexample :
    (handle_store ⟨0, 5, 42, 3⟩ 0 ⟨block_status.orphan, 0⟩ 42 3).2 =
      [effect.log log_level.warning, effect.fetch_locator_then_ask 3 42] ∧
    ask_blocks ⟨0, 5, 42, 3⟩ 0 [5] 42 3 =
      some (⟨0, 5, 42, 3⟩, [effect.log log_level.debug]) ∧
    count_get_blocks_sends [effect.log log_level.debug] = 0 := by
  decide

/-- C3 amended: every orphan completion — even with a failing result
code — requests a fresh locator whose continuation carries the orphan's
hash as stop hash; when that continuation runs with a successfully
fetched locator and the (locator head, orphan hash, session) tuple
differs from the previous request, a get-blocks request with stop hash
equal to the orphan's hash is sent. -/
theorem C3_orphan_refetch (st : poller_state) (ec : std_error_code)
    (info : block_info) (block_hash : hash_digest) (node : channel_id)
    (front : hash_digest) (rest : List hash_digest)
    (horph : info.status = block_status.orphan)
    (hnodup : ¬(st.last_locator_begin_ = front ∧
        st.last_hash_stop_ = block_hash ∧
        st.last_requested_node_ = node)) :
    effect.fetch_locator_then_ask node block_hash ∈
      (handle_store st ec info block_hash node).2 ∧
    ask_blocks st 0 (front :: rest) block_hash node =
      some ({ st with
                last_locator_begin_ := front,
                last_hash_stop_ := block_hash,
                last_requested_node_ := node },
            [effect.send_get_blocks node ⟨front :: rest, block_hash⟩]) := by
  constructor
  · rcases info with ⟨status, height⟩
    simp only at horph
    subst horph
    unfold handle_store
    simp
  · exact ask_blocks_send st front rest block_hash node hnodup

/-- C3 witness: an orphan store of block 42 fetches a locator and the
continuation on locator `[5]` sends get-blocks with stop hash 42. -/
theorem C3_witness :
    ((⟨block_status.orphan, 0⟩ : block_info).status =
        block_status.orphan) ∧
    effect.fetch_locator_then_ask 3 42 ∈
      (handle_store ⟨0, 1, 2, 9⟩ 7 ⟨block_status.orphan, 0⟩ 42 3).2 ∧
    ask_blocks ⟨0, 1, 2, 9⟩ 0 [5] 42 3 =
      some (⟨0, 5, 42, 3⟩, [effect.send_get_blocks 3 ⟨[5], 42⟩]) :=
  ⟨rfl,
   (C3_orphan_refetch ⟨0, 1, 2, 9⟩ 7 ⟨block_status.orphan, 0⟩ 42 3 5 []
      rfl (by decide)).1,
   (C3_orphan_refetch ⟨0, 1, 2, 9⟩ 7 ⟨block_status.orphan, 0⟩ 42 3 5 []
      rfl (by decide)).2⟩

/-- C8: `query` asks for the current locator with `initial_ask_blocks`
as continuation; a failed fetch only logs an error — no get-blocks is
sent and no new fetch is started; a successful fetch queues `ask_blocks`
with the null sentinel stop hash, and that queued call, when it runs
against a state whose last request differs, sends the get-blocks
request carrying the fetched locator and the null stop hash. -/
theorem C8_query_initial_request (st : poller_state)
    (ec : std_error_code) (locator : List hash_digest)
    (node : channel_id) (front : hash_digest) (rest : List hash_digest) :
    query st node = (st, [effect.fetch_locator_then_initial_ask node]) ∧
    (ec ≠ 0 → initial_ask_blocks st ec locator node =
        (st, [effect.log log_level.error])) ∧
    initial_ask_blocks st 0 locator node =
      (st, [effect.queue_ask_blocks node locator null_hash]) ∧
    (¬(st.last_locator_begin_ = front ∧ st.last_hash_stop_ = null_hash ∧
        st.last_requested_node_ = node) →
      ask_blocks st 0 (front :: rest) null_hash node =
        some ({ st with
                  last_locator_begin_ := front,
                  last_hash_stop_ := null_hash,
                  last_requested_node_ := node },
              [effect.send_get_blocks node ⟨front :: rest, null_hash⟩])) := by
  refine ⟨rfl, ?_, ?_, ?_⟩
  · intro hec
    unfold initial_ask_blocks
    simp [hec]
  · unfold initial_ask_blocks
    simp
  · intro hnodup
    exact ask_blocks_send st front rest null_hash node hnodup

/-- C8 witness: a failed fetch only logs; a successful fetch of locator
`[5, 6]` queues and then sends get-blocks with the null stop hash. -/
theorem C8_witness :
    (1 : std_error_code) ≠ 0 ∧
    initial_ask_blocks ⟨0, 1, 2, 3⟩ 1 [5, 6] 9 =
      (⟨0, 1, 2, 3⟩, [effect.log log_level.error]) ∧
    initial_ask_blocks ⟨0, 1, 2, 3⟩ 0 [5, 6] 9 =
      (⟨0, 1, 2, 3⟩, [effect.queue_ask_blocks 9 [5, 6] null_hash]) ∧
    ask_blocks ⟨0, 1, 2, 3⟩ 0 [5, 6] null_hash 9 =
      some (⟨0, 5, null_hash, 9⟩,
            [effect.send_get_blocks 9 ⟨[5, 6], null_hash⟩]) :=
  ⟨by decide,
   (C8_query_initial_request ⟨0, 1, 2, 3⟩ 1 [5, 6] 9 5 [6]).2.1 (by decide),
   (C8_query_initial_request ⟨0, 1, 2, 3⟩ 1 [5, 6] 9 5 [6]).2.2.1,
   (C8_query_initial_request ⟨0, 1, 2, 3⟩ 0 [5, 6] 9 5 [6]).2.2.2
     (by decide)⟩

end LibbitcoinNode
